import Mathlib

/-!
Verification of the recall-scoring engine of the stem-cell curation
repository: value missingness, the field-wise comparator, single-item and
multi-item section scoring, field-level aggregation across documents, and
the age-range semantic-equivalence analysis.

Values are modelled as `Option String`: `none` is JSON null, `some s` is a
scalar whose Python `str()` form is `s`.  Records are association lists in
dict insertion order; `recordGet` models `dict.get`.  Rational numbers
stand in for Python floats (every recall computed here is an exact small
fraction, so no rounding is involved).
-/

/-- The whitespace characters recognised by Python `str.strip()`. -/
def isPySpace (c : Char) : Bool :=
  c = ' ' || c = '\t' || c = '\n' || c = '\r' || c = '\x0b' || c = '\x0c'

/-- Python `str.strip()` on a list of characters. -/
def pyStripList (l : List Char) : List Char :=
  ((l.dropWhile isPySpace).reverse.dropWhile isPySpace).reverse

/-- Python `str.strip()`. -/
def pyStrip (s : String) : String :=
  ⟨pyStripList s.data⟩

/-- Python `str()` applied to a possibly-null value (`str(None) = "None"`). -/
def pyStr : Option String → String
  | none => "None"
  | some s => s

/-- A record: a mapping from field name to scalar value (dict order kept). -/
abbrev Record := List (String × Option String)

/-- A document: a mapping from section name to a list of records. -/
abbrev Document := List (String × List Record)

/-- Python `item.get(key)`: `None` when the key is absent or stored as null. -/
def recordGet (item : Record) (key : String) : Option String :=
  (item.lookup key).join

/-- `is_missing_value` (field_recall_calculation.py:54, and the identical
inline checks in single_item_recall.py): a value is missing iff it is null
or its stripped string form is `""`, `"Missing"` or `"None"`. -/
def is_missing_value (value : Option String) : Bool :=
  value == none || ["", "Missing", "None"].contains (pyStrip (pyStr value))

/-- `count_non_missing_fields` (single_item_recall.py:122). -/
def count_non_missing_fields : Record → Nat
  | [] => 0
  | (_, value) :: rest =>
    (if is_missing_value value then 0 else 1) + count_non_missing_fields rest

/-- `compare_items_fieldwise` (single_item_recall.py:131): returns
`(matched_fields, total_gt_fields)`. -/
def compare_items_fieldwise (gt_item model_item : Record) : Nat × Nat :=
  match gt_item with
  | [] => (0, 0)
  | (field_name, gt_value) :: rest =>
    let r := compare_items_fieldwise rest model_item
    if is_missing_value gt_value then r
    else
      let model_value := recordGet model_item field_name
      if model_value ≠ none then
        if pyStrip (pyStr gt_value) = pyStrip (pyStr model_value) then
          (r.1 + 1, r.2 + 1)
        else (r.1, r.2 + 1)
      else (r.1, r.2 + 1)

/-- Claim-side predicate: the model record holds, under the ground-truth
field name, a non-missing value whose stripped string form equals the
stripped ground-truth string form. -/
def model_has_matching_value (model_item : Record) (field_name : String)
    (gt_value : Option String) : Bool :=
  !is_missing_value (recordGet model_item field_name) &&
    pyStrip (pyStr gt_value) == pyStrip (pyStr (recordGet model_item field_name))

/-- The sections expected to hold exactly one record
(single_item_recall.py:12, duplicated in field_recall_calculation.py:16). -/
def SINGLE_ITEM_ARRAYS : List String :=
  ["publications", "donor", "genomic_characterisation", "induced_derivation",
   "culture_medium", "embryonic_derivation", "basic_data", "generator",
   "undifferentiated_characterisation"]

/-- The sections that may hold several records (single_item_recall.py:25). -/
def MULTI_ITEM_ARRAYS : List String :=
  ["contact", "genomic_modifications", "differentiation_results", "ethics"]

/-- The per-section matching-key field (multi_item_recall.py:28, duplicated
in field_recall_calculation.py:37). -/
def MULTI_ITEM_MATCHING_FIELDS : List (String × String) :=
  [("contact", "last_name"), ("differentiation_results", "cell_type"),
   ("ethics", "ethics_number"), ("genomic_modifications", "loci_name")]

/-- `SingleItemRecallResult` (single_item_recall.py:33). -/
structure SingleItemRecallResult where
  section_name : String
  total_gt_fields : Nat
  matched_fields : Nat
  recall_score : ℚ
  status : String
  message : String

/-- The `__init__` defaults of `SingleItemRecallResult`. -/
def SingleItemRecallResult.init (section_name : String) : SingleItemRecallResult :=
  { section_name := section_name
    total_gt_fields := 0
    matched_fields := 0
    recall_score := 0
    status := "success"
    message := "" }

/-- `SingleItemRecallResult.set_recall` (single_item_recall.py:44). -/
def SingleItemRecallResult.set_recall (r : SingleItemRecallResult)
    (matched total : Nat) : SingleItemRecallResult :=
  { r with
    matched_fields := matched
    total_gt_fields := total
    recall_score := if total > 0 then (matched : ℚ) / (total : ℚ) else 0 }

/-- `SingleItemRecallResult.set_error` (single_item_recall.py:50). -/
def SingleItemRecallResult.set_error (r : SingleItemRecallResult)
    (status message : String) : SingleItemRecallResult :=
  { r with status := status, message := message }

/-- `calculate_single_item_recall` (single_item_recall.py:65). -/
def calculate_single_item_recall (gt_data model_data : Document)
    (section_name : String) : SingleItemRecallResult :=
  let result := SingleItemRecallResult.init section_name
  let gt_section := (gt_data.lookup section_name).getD []
  let model_section := (model_data.lookup section_name).getD []
  if gt_section.length = 0 then
    result.set_error "missing_sections"
      ("Ground truth missing " ++ section_name ++ " section")
  else if gt_section.length > 1 then
    result.set_error "gt_multiple_items"
      ("Ground truth has " ++ toString gt_section.length ++ " items in " ++
        section_name ++ ", expected 1. Skipping recall.")
  else
    let gt_item := gt_section.headD []
    if model_section.length = 0 then
      let total_gt_fields := count_non_missing_fields gt_item
      { (result.set_recall 0 total_gt_fields) with
        message := "Model output missing " ++ section_name ++ " section" }
    else if model_section.length > 1 then
      let total_gt_fields := count_non_missing_fields gt_item
      let r := result.set_recall 0 total_gt_fields
      { r with
        status := "success"
        message := "Model output has " ++ toString model_section.length ++
          " items in " ++ section_name ++
          ", expected 1. No matches due to structure error." }
    else
      let model_item := model_section.headD []
      let mt := compare_items_fieldwise gt_item model_item
      { (result.set_recall mt.1 mt.2) with
        message := "Compared " ++ toString mt.2 ++ " GT fields, " ++
          toString mt.1 ++ " matched" }

/-- `MultiItemRecallResult` (multi_item_recall.py:36). -/
structure MultiItemRecallResult where
  section_name : String
  total_gt_fields : Nat
  matched_fields : Nat
  recall_score : ℚ
  status : String
  message : String
  gt_items_count : Nat
  model_items_count : Nat
  matched_pairs : Nat
  skipped_items : Nat

/-- The `__init__` defaults of `MultiItemRecallResult`. -/
def MultiItemRecallResult.init (section_name : String) : MultiItemRecallResult :=
  { section_name := section_name
    total_gt_fields := 0
    matched_fields := 0
    recall_score := 0
    status := "success"
    message := ""
    gt_items_count := 0
    model_items_count := 0
    matched_pairs := 0
    skipped_items := 0 }

/-- `MultiItemRecallResult.set_recall` (multi_item_recall.py:51). -/
def MultiItemRecallResult.set_recall (r : MultiItemRecallResult)
    (matched total : Nat) : MultiItemRecallResult :=
  { r with
    matched_fields := matched
    total_gt_fields := total
    recall_score := if total > 0 then (matched : ℚ) / (total : ℚ) else 0 }

/-- `MultiItemRecallResult.set_conservative_penalty` (multi_item_recall.py:57). -/
def MultiItemRecallResult.set_conservative_penalty (r : MultiItemRecallResult)
    (total_gt_fields : Nat) (message : String) : MultiItemRecallResult :=
  { (r.set_recall 0 total_gt_fields) with
    status := "no_matches_conservative"
    message := message }

/-- `get_matching_field_value` (multi_item_recall.py:64). -/
def get_matching_field_value (item : Record) (field_name : String) : Option String :=
  let value := recordGet item field_name
  if value ≠ none ∧ pyStrip (pyStr value) ∉ (["", "Missing", "None"] : List String) then
    some (pyStrip (pyStr value))
  else none

/-- The inner loop of `find_item_matches` (multi_item_recall.py:88): the
indices of the model items whose matching-field value equals `gt_value`,
in model order, starting at index `model_idx`. -/
def find_matching_model_idxs (gt_value matching_field : String) :
    Nat → List Record → List Nat
  | _, [] => []
  | model_idx, model_item :: rest =>
    let r := find_matching_model_idxs gt_value matching_field (model_idx + 1) rest
    match get_matching_field_value model_item matching_field with
    | some model_value => if gt_value = model_value then model_idx :: r else r
    | none => r

/-- The per-ground-truth-item row of `find_item_matches`: empty when the
ground-truth matching field is missing or no model item matches. -/
def find_item_matches_row (gt_item : Record) (model_items : List Record)
    (matching_field : String) : List Nat :=
  match get_matching_field_value gt_item matching_field with
  | none => []
  | some gt_value => find_matching_model_idxs gt_value matching_field 0 model_items

/-- Outer loop of `find_item_matches`, carrying the ground-truth index. -/
def find_item_matches_aux (model_items : List Record) (matching_field : String) :
    Nat → List Record → List (Nat × List Nat)
  | _, [] => []
  | gt_idx, gt_item :: rest =>
    let row := find_item_matches_row gt_item model_items matching_field
    let r := find_item_matches_aux model_items matching_field (gt_idx + 1) rest
    if row.isEmpty then r else (gt_idx, row) :: r

/-- `find_item_matches` (multi_item_recall.py:72): a `defaultdict` holds an
entry for a ground-truth index exactly when at least one model index was
appended for it. -/
def find_item_matches (gt_items model_items : List Record)
    (matching_field : String) : List (Nat × List Nat) :=
  find_item_matches_aux model_items matching_field 0 gt_items

/-- The accumulation loop of `calculate_multi_item_recall`
(multi_item_recall.py:145): returns `(total_matched_fields,
total_gt_fields, matched_pairs, skipped_items)`. -/
def multiItemLoopAux (match_dict : List (Nat × List Nat))
    (model_section : List Record) : Nat → List Record → Nat × Nat × Nat × Nat
  | _, [] => (0, 0, 0, 0)
  | gt_idx, gt_item :: rest =>
    let r := multiItemLoopAux match_dict model_section (gt_idx + 1) rest
    match match_dict.lookup gt_idx with
    | none => (r.1, count_non_missing_fields gt_item + r.2.1, r.2.2.1, r.2.2.2)
    | some model_matches =>
      if model_matches.length > 1 then (r.1, r.2.1, r.2.2.1, r.2.2.2 + 1)
      else
        let model_idx := model_matches.headD 0
        let model_item := model_section.getD model_idx []
        let p := compare_items_fieldwise gt_item model_item
        (p.1 + r.1, p.2 + r.2.1, 1 + r.2.2.1, r.2.2.2)

/-- The matching-and-scoring core of `calculate_multi_item_recall`. -/
def multiItemLoop (gt_section model_section : List Record)
    (matching_field : String) : Nat × Nat × Nat × Nat :=
  multiItemLoopAux (find_item_matches gt_section model_section matching_field)
    model_section 0 gt_section

/-- `calculate_multi_item_recall` (multi_item_recall.py:96). -/
def calculate_multi_item_recall (gt_data model_data : Document)
    (section_name : String) : MultiItemRecallResult :=
  let result := MultiItemRecallResult.init section_name
  let gt_section := (gt_data.lookup section_name).getD []
  let model_section := (model_data.lookup section_name).getD []
  let result := { result with
    gt_items_count := gt_section.length
    model_items_count := model_section.length }
  if gt_section.length = 0 then
    { result with message := "Ground truth missing " ++ section_name ++ " section" }
  else if model_section.length = 0 then
    let total_gt_fields := (gt_section.map count_non_missing_fields).sum
    result.set_conservative_penalty total_gt_fields
      ("Model output missing " ++ section_name ++ " section")
  else
    match MULTI_ITEM_MATCHING_FIELDS.lookup section_name with
    | none => { result with message := "No matching field defined for " ++ section_name }
    | some matching_field =>
      let t := multiItemLoop gt_section model_section matching_field
      let total_matched_fields := t.1
      let total_gt_fields := t.2.1
      let matched_pairs := t.2.2.1
      let skipped_items := t.2.2.2
      let result := { (result.set_recall total_matched_fields total_gt_fields) with
        matched_pairs := matched_pairs
        skipped_items := skipped_items }
      let result :=
        if skipped_items > 0 then
          { result with
            status := "multiple_matches_skipped"
            message := "Matched " ++ toString matched_pairs ++ " pairs, skipped " ++
              toString skipped_items ++ " GT items due to multiple model matches" }
        else if total_gt_fields = 0 then
          { result with message := "No valid GT items with non-missing " ++
            matching_field ++ " field" }
        else
          { result with message := "Matched " ++ toString matched_pairs ++
            " pairs, compared " ++ toString total_gt_fields ++ " GT fields" }
      let unmatched_items := gt_section.length - matched_pairs - skipped_items
      if unmatched_items > 0 then
        let result := if result.status = "success" then
          { result with status := "no_matches_conservative" } else result
        { result with message := result.message ++ ". " ++ toString unmatched_items ++
          " GT items had no matches (conservative penalty)" }
      else result

/-- Claim-side helper: the contribution of one ground-truth item to the
multi-item accumulation, as `(matched, total, pairs, skipped)`. -/
def multiItemContrib (model_section : List Record) (matching_field : String)
    (gt_item : Record) : Nat × Nat × Nat × Nat :=
  let row := find_item_matches_row gt_item model_section matching_field
  if row.isEmpty then (0, count_non_missing_fields gt_item, 0, 0)
  else if row.length > 1 then (0, 0, 0, 1)
  else
    let p := compare_items_fieldwise gt_item (model_section.getD (row.headD 0) [])
    (p.1, p.2, 1, 0)

/-- Componentwise sum of two multi-item accumulator tuples. -/
def addCounts (a b : Nat × Nat × Nat × Nat) : Nat × Nat × Nat × Nat :=
  (a.1 + b.1, a.2.1 + b.2.1, a.2.2.1 + b.2.2.1, a.2.2.2 + b.2.2.2)

/-- `get_field_path` (field_recall_calculation.py:59). -/
def get_field_path (section_name field_name : String) : String :=
  section_name ++ "." ++ field_name

/-- The `field_stats` dictionary mapping field path to `(matched, total)`. -/
abbrev FieldStats := List (String × Nat × Nat)

/-- The `defaultdict(lambda: [0, 0])` update: add `dm`/`dt` to the entry of
`key`, creating it when absent. -/
def bumpStat : FieldStats → String → Nat → Nat → FieldStats
  | [], key, dm, dt => [(key, dm, dt)]
  | (k, m, t) :: rest, key, dm, dt =>
    if k = key then (k, m + dm, t + dt) :: rest
    else (k, m, t) :: bumpStat rest key dm dt

/-- Dictionary read with the defaultdict default `(0, 0)`. -/
def getStat (stats : FieldStats) (field_path : String) : Nat × Nat :=
  (stats.lookup field_path).getD (0, 0)

/-- The single-item field loop of `calculate_field_recall_for_cell_line`
(field_recall_calculation.py:142): `model_item` is `{}` when its section
does not hold exactly one record, in which case every lookup yields None. -/
def score_single_item_fields (stats : FieldStats) (section_name : String)
    (gt_item model_item : Record) : FieldStats :=
  gt_item.foldl (fun st p =>
    if is_missing_value p.2 then st
    else
      let field_path := get_field_path section_name p.1
      let st := bumpStat st field_path 0 1
      let model_value := if model_item.isEmpty then none else recordGet model_item p.1
      if !is_missing_value model_value &&
          (pyStrip (pyStr p.2) == pyStrip (pyStr model_value)) then
        bumpStat st field_path 1 0
      else st) stats

/-- The matched-pair field loop of `calculate_field_recall_for_cell_line`
(field_recall_calculation.py:162). -/
def score_matched_pair_fields (stats : FieldStats) (section_name : String)
    (gt_item model_item : Record) : FieldStats :=
  gt_item.foldl (fun st p =>
    if is_missing_value p.2 then st
    else
      let field_path := get_field_path section_name p.1
      let st := bumpStat st field_path 0 1
      let model_value := recordGet model_item p.1
      if !is_missing_value model_value &&
          (pyStrip (pyStr p.2) == pyStrip (pyStr model_value)) then
        bumpStat st field_path 1 0
      else st) stats

/-- The unmatched ground-truth item loop (field_recall_calculation.py:175):
non-missing fields count toward totals only. -/
def add_unmatched_gt_fields (stats : FieldStats) (section_name : String)
    (gt_item : Record) : FieldStats :=
  gt_item.foldl (fun st p =>
    if is_missing_value p.2 then st
    else bumpStat st (get_field_path section_name p.1) 0 1) stats

/-- The inner candidate scan of `match_multi_item_arrays`
(field_recall_calculation.py:96): model indices not yet used whose key
value matches, starting at index `i`. -/
def candidate_model_idxs (matching_field : String) (gt_key_value : Option String)
    (used_model_indices : List Nat) : Nat → List Record → List Nat
  | _, [] => []
  | i, model_item :: rest =>
    let r := candidate_model_idxs matching_field gt_key_value used_model_indices
      (i + 1) rest
    if used_model_indices.contains i then r
    else
      let model_key_value := recordGet model_item matching_field
      if !is_missing_value model_key_value &&
          (pyStrip (pyStr gt_key_value) == pyStrip (pyStr model_key_value)) then
        i :: r
      else r

/-- The matching loop of `match_multi_item_arrays`
(field_recall_calculation.py:90), tracking item positions: a pair is formed
only when exactly one unused model index matches. -/
def match_multi_item_idx_aux (model_items : List Record) (matching_field : String) :
    Nat → List Nat → List Record → List (Nat × Nat)
  | _, _, [] => []
  | gt_idx, used_model_indices, gt_item :: rest =>
    let gt_key_value := recordGet gt_item matching_field
    if is_missing_value gt_key_value then
      match_multi_item_idx_aux model_items matching_field (gt_idx + 1)
        used_model_indices rest
    else
      match candidate_model_idxs matching_field gt_key_value used_model_indices
          0 model_items with
      | [i] => (gt_idx, i) :: match_multi_item_idx_aux model_items matching_field
          (gt_idx + 1) (i :: used_model_indices) rest
      | _ => match_multi_item_idx_aux model_items matching_field (gt_idx + 1)
          used_model_indices rest

/-- Position-level view of `match_multi_item_arrays`. -/
def match_multi_item_idx (gt_items model_items : List Record)
    (matching_field : String) : List (Nat × Nat) :=
  match_multi_item_idx_aux model_items matching_field 0 [] gt_items

/-- `match_multi_item_arrays` (field_recall_calculation.py:80): the matched
`(gt_item, model_item)` pairs. -/
def match_multi_item_arrays (gt_items model_items : List Record)
    (matching_field : String) : List (Record × Record) :=
  (match_multi_item_idx gt_items model_items matching_field).map
    (fun p => (gt_items.getD p.1 [], model_items.getD p.2 []))

/-- The pass over ground-truth items not in any matched pair
(field_recall_calculation.py:174): Python tracks them by object identity,
which for freshly-parsed JSON coincides with list position. -/
def add_unmatched_gt_items (section_name : String) (matched_gt_idxs : List Nat) :
    Nat → List Record → FieldStats → FieldStats
  | _, [], stats => stats
  | gt_idx, gt_item :: rest, stats =>
    let stats := if matched_gt_idxs.contains gt_idx then stats
      else add_unmatched_gt_fields stats section_name gt_item
    add_unmatched_gt_items section_name matched_gt_idxs (gt_idx + 1) rest stats

/-- The per-section body of `calculate_field_recall_for_cell_line`
(field_recall_calculation.py:128). -/
def process_section (gt_data model_data : Document) (stats : FieldStats)
    (section_name : String) : FieldStats :=
  let gt_section := (gt_data.lookup section_name).getD []
  let model_section := (model_data.lookup section_name).getD []
  if SINGLE_ITEM_ARRAYS.contains section_name then
    if gt_section.length = 1 then
      let gt_item := gt_section.headD []
      let model_item := if model_section.length = 1 then model_section.headD [] else []
      score_single_item_fields stats section_name gt_item model_item
    else stats
  else if MULTI_ITEM_ARRAYS.contains section_name then
    match MULTI_ITEM_MATCHING_FIELDS.lookup section_name with
    | none => stats
    | some matching_field =>
      let pairs := match_multi_item_idx gt_section model_section matching_field
      let stats := pairs.foldl (fun st p =>
        score_matched_pair_fields st section_name (gt_section.getD p.1 [])
          (model_section.getD p.2 [])) stats
      add_unmatched_gt_items section_name (pairs.map Prod.fst) 0 gt_section stats
  else stats

/-- Key deduplication, keeping first occurrences (used to model the Python
set union of section names, whose values are order-independent). -/
def dedup_keys : List String → List String → List String
  | [], _ => []
  | s :: rest, seen =>
    if seen.contains s then dedup_keys rest seen
    else s :: dedup_keys rest (s :: seen)

/-- `set(gt_data.keys()) | set(model_data.keys())`
(field_recall_calculation.py:126). -/
def all_sections (gt_data model_data : Document) : List String :=
  dedup_keys (gt_data.map Prod.fst ++ model_data.map Prod.fst) []

/-- `calculate_field_recall_for_cell_line` (field_recall_calculation.py:115):
field path to `(matched_count, total_gt_count)` for one document pair. -/
def calculate_field_recall_for_cell_line (gt_data model_data : Document) :
    FieldStats :=
  (all_sections gt_data model_data).foldl (process_section gt_data model_data) []

/-- The aggregation loop of `calculate_field_recall_for_model`
(field_recall_calculation.py:219): sum matched and total per field path
across per-document statistics. -/
def aggregate_field_stats (per_document_stats : List FieldStats) : FieldStats :=
  per_document_stats.foldl
    (fun agg doc => doc.foldl (fun a p => bumpStat a p.1 p.2.1 p.2.2) agg) []

/-- The recall conversion of `calculate_all_models_field_recall`
(field_recall_calculation.py:260). -/
def field_recall_scores (stats : FieldStats) : List (String × ℚ) :=
  stats.map (fun p => (p.1, if p.2.2 > 0 then (p.2.1 : ℚ) / (p.2.2 : ℚ) else 0))

/-- A maximal run of decimal digits possibly separated by single
underscores, as accepted inside Python numeric strings (PEP 515); returns
the digits (underscores dropped) and the unconsumed remainder. -/
def digitGroup : List Char → List Char × List Char
  | [] => ([], [])
  | [c] => if c.isDigit then ([c], []) else ([], [c])
  | c :: '_' :: rest =>
    if c.isDigit then
      match rest with
      | d :: _ =>
        if d.isDigit then
          let p := digitGroup rest
          (c :: p.1, p.2)
        else ([c], '_' :: rest)
      | [] => ([c], ['_'])
    else ([], c :: '_' :: rest)
  | c :: c2 :: rest =>
    if c.isDigit then
      let p := digitGroup (c2 :: rest)
      (c :: p.1, p.2)
    else ([], c :: c2 :: rest)

/-- Decimal digits to a natural number. -/
def digitsToNat (l : List Char) : Nat :=
  l.foldl (fun n c => n * 10 + (c.toNat - '0'.toNat)) 0

/-- Python `str.split(sep)` on a character list. -/
def splitOnChar (sep : Char) : List Char → List (List Char)
  | [] => [[]]
  | c :: rest =>
    let r := splitOnChar sep rest
    if c = sep then [] :: r
    else
      match r with
      | h :: t => (c :: h) :: t
      | [] => [[c]]

/-- A non-empty all-digit (with PEP 515 underscores) run, or failure. -/
def pyIntOfDigits (l : List Char) : Option Nat :=
  match l with
  | [] => none
  | _ =>
    let p := digitGroup l
    if p.1 ≠ [] ∧ p.2 = [] then some (digitsToNat p.1) else none

/-- Python `int(s)` on a character list: optional surrounding whitespace,
optional sign, decimal digits. -/
def pyIntOfCharList (l : List Char) : Option Int :=
  match pyStripList l with
  | '+' :: rest => (pyIntOfDigits rest).map (fun n => (n : Int))
  | '-' :: rest => (pyIntOfDigits rest).map (fun n => -(n : Int))
  | rest => (pyIntOfDigits rest).map (fun n => (n : Int))

/-- Mantissa of a Python float string: digits, or digits dot digits, or
digits dot, or dot digits; returns the combined digit value, the count of
fractional digits and the remainder. -/
def parseMantissa (l : List Char) : Option (Nat × Nat × List Char) :=
  match l with
  | '.' :: rest =>
    let p := digitGroup rest
    if p.1 = [] then none else some (digitsToNat p.1, p.1.length, p.2)
  | _ =>
    let p := digitGroup l
    if p.1 = [] then none
    else
      match p.2 with
      | '.' :: rest2 =>
        let q := digitGroup rest2
        some (digitsToNat (p.1 ++ q.1), q.1.length, q.2)
      | rest => some (digitsToNat p.1, 0, rest)

/-- Signed exponent digits after `e`/`E`. -/
def parseExponentDigits (l : List Char) : Option Int :=
  match l with
  | '+' :: rest => (pyIntOfDigits rest).map (fun n => (n : Int))
  | '-' :: rest => (pyIntOfDigits rest).map (fun n => -(n : Int))
  | rest => (pyIntOfDigits rest).map (fun n => (n : Int))

/-- Optional exponent part of a Python float string; the remainder must be
fully consumed. -/
def parseExponent (l : List Char) : Option Int :=
  match l with
  | [] => some 0
  | 'e' :: rest => parseExponentDigits rest
  | 'E' :: rest => parseExponentDigits rest
  | _ => none

/-- Truncation toward zero of `±mantissa × 10^scale`, as `int()` applied to
a float performs. -/
def truncTowardZero (negative : Bool) (mantissa : Nat) (scale : Int) : Int :=
  let magnitude : Nat :=
    if 0 ≤ scale then mantissa * 10 ^ scale.toNat
    else mantissa / 10 ^ (-scale).toNat
  if negative then -(magnitude : Int) else (magnitude : Int)

/-- Python `int(float(s))` on a character list, with exact decimal
semantics: optional whitespace and sign, mantissa, optional exponent.  The
values this development evaluates are small, so binary-float rounding never
matters; `inf`/`nan` spellings are treated as unparseable (CPython would
raise through `int()` for the infinite case). -/
def pyIntOfFloatStr (l : List Char) : Option Int :=
  let l := pyStripList l
  let signSplit : Bool × List Char :=
    match l with
    | '+' :: rest => (false, rest)
    | '-' :: rest => (true, rest)
    | rest => (false, rest)
  match parseMantissa signSplit.2 with
  | none => none
  | some m =>
    match parseExponent m.2.2 with
    | none => none
    | some e => some (truncTowardZero signSplit.1 m.1 (e - (m.2.1 : Int)))

/-- `parse_age_range` (age_range_correction.py:13): an underscore-delimited
pair of Python integers, after the missing-sentinel guard. -/
def parse_age_range (age_str : String) : Option (Int × Int) :=
  if age_str = "" ∨ pyStrip age_str ∈ (["", "Missing", "None"] : List String) then none
  else
    let t := pyStripList age_str.data
    if t.contains '_' then
      match splitOnChar '_' t with
      | [p1, p2] =>
        match pyIntOfCharList p1, pyIntOfCharList p2 with
        | some min_age, some max_age => some (min_age, max_age)
        | _, _ => none
      | _ => none
    else none

/-- `parse_single_age` (age_range_correction.py:43): `int(float(s))` after
the missing-sentinel guard. -/
def parse_single_age (age_str : String) : Option Int :=
  if age_str = "" ∨ pyStrip age_str ∈ (["", "Missing", "None"] : List String) then none
  else pyIntOfFloatStr (pyStripList age_str.data)

/-- `is_age_in_range` (age_range_correction.py:60). -/
def is_age_in_range (age : Int) (age_range : Int × Int) : Bool :=
  decide (age_range.1 ≤ age ∧ age ≤ age_range.2)

/-- The trailing half of `ages_are_semantically_equivalent`
(age_range_correction.py:99), reached when the ground-truth value did not
parse as a range, or parsed as a range while the model value parsed as
neither number nor range (in which case its parse results are recomputed,
all None, and the answer is False). -/
def age_equiv_tail (gt_value model_value : String) : Bool :=
  match parse_single_age gt_value with
  | some gt_age =>
    (match parse_age_range model_value with
     | some model_range => is_age_in_range gt_age model_range
     | none =>
       match parse_single_age model_value with
       | some model_age => decide (gt_age = model_age)
       | none => false)
  | none => false

/-- `ages_are_semantically_equivalent` (age_range_correction.py:66). -/
def ages_are_semantically_equivalent (gt_value model_value : String) : Bool :=
  if gt_value = "" ∨ model_value = "" then false
  else if pyStrip gt_value = pyStrip model_value then true
  else
    match parse_age_range gt_value with
    | some gt_range =>
      (match parse_single_age model_value with
       | some model_age => is_age_in_range model_age gt_range
       | none =>
         match parse_age_range model_value with
         | some model_range =>
           decide (gt_range.1 = model_range.1 ∧ gt_range.2 = model_range.2)
         | none => age_equiv_tail gt_value model_value)
    | none => age_equiv_tail gt_value model_value

theorem is_missing_value_none : is_missing_value none = true := by decide

theorem not_missing_iff (s : String) :
    is_missing_value (some s) = false ↔
      ¬ (pyStrip s = "" ∨ pyStrip s = "Missing" ∨ pyStrip s = "None") := by
  simp [is_missing_value, pyStr, List.contains_eq_any_beq]

theorem match_cond_eq (gt_value model_value : Option String)
    (hv : is_missing_value gt_value = false) :
    (decide (model_value ≠ none) &&
      decide (pyStrip (pyStr gt_value) = pyStrip (pyStr model_value))) =
    (!is_missing_value model_value &&
      pyStrip (pyStr gt_value) == pyStrip (pyStr model_value)) := by
  cases model_value with
  | none =>
    cases gt_value with
    | none => simp [is_missing_value] at hv
    | some s =>
      rw [not_missing_iff] at hv
      have hne : pyStrip (pyStr (some s)) ≠ pyStrip (pyStr (none : Option String)) := by
        simp only [pyStr]
        intro h
        apply hv
        right; right
        rw [h]; decide
      simp [hne, is_missing_value_none]
  | some m =>
    by_cases he : pyStrip (pyStr gt_value) = pyStrip (pyStr (some m))
    · have hm : is_missing_value (some m) = false := by
        rw [not_missing_iff]
        cases gt_value with
        | none => simp [is_missing_value] at hv
        | some s =>
          rw [not_missing_iff] at hv
          simp only [pyStr] at he ⊢
          rw [← he]; exact hv
      simp [he, hm]
    · simp [he]

/-- Claim C1: `compare_items_fieldwise` returns `total` equal to the number
of non-missing ground-truth fields and `matched` equal to the number of
those fields for which the model record holds the same field name with a
non-missing value whose stripped string form equals the ground-truth one;
model-only fields and `"Missing"`-valued ground-truth fields affect
neither count. -/
theorem fieldwise_comparator_counts (gt_item model_item : Record) :
    compare_items_fieldwise gt_item model_item =
      ((gt_item.filter (fun p => !is_missing_value p.2 &&
          model_has_matching_value model_item p.1 p.2)).length,
       (gt_item.filter (fun p => !is_missing_value p.2)).length) := by
  induction gt_item with
  | nil => rfl
  | cons p rest ih =>
    obtain ⟨k, v⟩ := p
    by_cases hv : is_missing_value v = true
    · simp [compare_items_fieldwise, hv, ih]
    · have hv' : is_missing_value v = false := by simpa using hv
      have hmh : model_has_matching_value model_item k v =
          (decide (recordGet model_item k ≠ none) &&
            decide (pyStrip (pyStr v) = pyStrip (pyStr (recordGet model_item k)))) :=
        (match_cond_eq v (recordGet model_item k) hv').symm
      by_cases hmv : recordGet model_item k = none
      · have hfalse : model_has_matching_value model_item k v = false := by
          rw [hmh, hmv]; simp
        simp [compare_items_fieldwise, hv', hmv, hfalse, ih]
      · by_cases heq : pyStrip (pyStr v) = pyStrip (pyStr (recordGet model_item k))
        · have htrue : model_has_matching_value model_item k v = true := by
            rw [hmh]; simp [hmv, heq]
          simp [compare_items_fieldwise, hv', hmv, heq, htrue, ih]
        · have hfalse : model_has_matching_value model_item k v = false := by
            rw [hmh]; simp [heq]
          simp [compare_items_fieldwise, hv', hmv, heq, hfalse, ih]

/-- Concrete instance of `fieldwise_comparator_counts`: age matches, sex
differs, a `"Missing"` ground-truth field and a model-only field count for
nothing. -/
theorem fieldwise_comparator_counts_witness :
    compare_items_fieldwise
      [("age", some "30"), ("sex", some "Male"), ("notes", some "Missing")]
      [("age", some "30"), ("sex", some "Female"), ("extra", some "X")] = (1, 2) :=
  (fieldwise_comparator_counts
    [("age", some "30"), ("sex", some "Male"), ("notes", some "Missing")]
    [("age", some "30"), ("sex", some "Female"), ("extra", some "X")]).trans (by decide)

/-- Claim C10: the `total` component of `compare_items_fieldwise` equals
`count_non_missing_fields` of the ground-truth record alone — the
denominator never depends on the model record. -/
theorem fieldwise_total_eq_count (gt_item model_item : Record) :
    (compare_items_fieldwise gt_item model_item).2 =
      count_non_missing_fields gt_item := by
  induction gt_item with
  | nil => rfl
  | cons p rest ih =>
    obtain ⟨k, v⟩ := p
    by_cases hv : is_missing_value v = true
    · simp [compare_items_fieldwise, count_non_missing_fields, hv, ih]
    · have hv' : is_missing_value v = false := by simpa using hv
      by_cases hmv : recordGet model_item k = none
      · simp [compare_items_fieldwise, count_non_missing_fields, hv', hmv, ih]
        omega
      · by_cases heq : pyStrip (pyStr v) = pyStrip (pyStr (recordGet model_item k))
        · simp [compare_items_fieldwise, count_non_missing_fields, hv', hmv, heq, ih]
          omega
        · simp [compare_items_fieldwise, count_non_missing_fields, hv', hmv, heq, ih]
          omega

/-- Concrete instance of `fieldwise_total_eq_count`. -/
theorem fieldwise_total_eq_count_witness :
    (compare_items_fieldwise [("age", some "30"), ("sex", none)]
      [("other", some "1")]).2 =
      count_non_missing_fields [("age", some "30"), ("sex", none)] :=
  fieldwise_total_eq_count [("age", some "30"), ("sex", none)] [("other", some "1")]

/-- Claim C4: the single-item scorer checks its terminal outcomes in order:
empty ground-truth section gives the missing-section status with zero
counts; a ground-truth section with more than one record gives the
ground-truth-cardinality-violation status and is not scored; a model
section with zero or several records scores zero matches against the full
non-missing ground-truth field count; and the one-against-one case is the
field-wise comparison. -/
theorem single_item_recall_branches (gt_data model_data : Document)
    (section_name : String) (r : SingleItemRecallResult)
    (hr : r = calculate_single_item_recall gt_data model_data section_name) :
    (((gt_data.lookup section_name).getD []).length = 0 →
      r.status = "missing_sections" ∧ r.matched_fields = 0 ∧ r.total_gt_fields = 0) ∧
    (1 < ((gt_data.lookup section_name).getD []).length →
      r.status = "gt_multiple_items" ∧ r.matched_fields = 0 ∧ r.total_gt_fields = 0) ∧
    (((gt_data.lookup section_name).getD []).length = 1 →
      (((model_data.lookup section_name).getD []).length = 0 ∨
        1 < ((model_data.lookup section_name).getD []).length) →
      r.matched_fields = 0 ∧
      r.total_gt_fields =
        count_non_missing_fields (((gt_data.lookup section_name).getD []).headD [])) ∧
    (((gt_data.lookup section_name).getD []).length = 1 →
      ((model_data.lookup section_name).getD []).length = 1 →
      (r.matched_fields, r.total_gt_fields) =
        compare_items_fieldwise (((gt_data.lookup section_name).getD []).headD [])
          (((model_data.lookup section_name).getD []).headD [])) := by
  subst hr
  simp only [calculate_single_item_recall]
  generalize (gt_data.lookup section_name).getD ([] : List Record) = gs
  generalize (model_data.lookup section_name).getD ([] : List Record) = ms
  rcases gs with _ | ⟨g1, _ | ⟨g2, gtl⟩⟩
  · simp [SingleItemRecallResult.set_error, SingleItemRecallResult.init]
  · rcases ms with _ | ⟨m1, _ | ⟨m2, mtl⟩⟩
    · simp [SingleItemRecallResult.set_recall, SingleItemRecallResult.init]
    · simp [SingleItemRecallResult.set_recall, SingleItemRecallResult.init]
    · simp [SingleItemRecallResult.set_recall, SingleItemRecallResult.init]
  · simp [SingleItemRecallResult.set_error, SingleItemRecallResult.init]

/-- Concrete instance of `single_item_recall_branches`: one record on each
side, age matches, sex differs, recall counts 1 of 2. -/
theorem single_item_recall_branches_witness :
    (calculate_single_item_recall
      [("donor", [[("age", some "30"), ("sex", some "Male")]])]
      [("donor", [[("age", some "30"), ("sex", some "Female")]])]
      "donor").matched_fields = 1 ∧
    (calculate_single_item_recall
      [("donor", [[("age", some "30"), ("sex", some "Male")]])]
      [("donor", [[("age", some "30"), ("sex", some "Female")]])]
      "donor").total_gt_fields = 2 := by
  have h := (single_item_recall_branches
    [("donor", [[("age", some "30"), ("sex", some "Male")]])]
    [("donor", [[("age", some "30"), ("sex", some "Female")]])]
    "donor" _ rfl).2.2.2 (by decide) (by decide)
  have h3 : ((calculate_single_item_recall
      [("donor", [[("age", some "30"), ("sex", some "Male")]])]
      [("donor", [[("age", some "30"), ("sex", some "Female")]])]
      "donor").matched_fields,
    (calculate_single_item_recall
      [("donor", [[("age", some "30"), ("sex", some "Male")]])]
      [("donor", [[("age", some "30"), ("sex", some "Female")]])]
      "donor").total_gt_fields) = (1, 2) := by
    rw [h]; decide
  exact ⟨congrArg Prod.fst h3, congrArg Prod.snd h3⟩

/-- Counterexample for claim C9: with one ground-truth record and two model
records, the scorer reports the success tag, not a model-cardinality
status. -/
theorem model_multiple_items_reports_success :
    (calculate_single_item_recall [("donor", [[("age", some "30")]])]
      [("donor", [[("age", some "30")], [("age", some "31")]])]
      "donor").status = "success" := by decide

/-- Claim C9 as amended: when the ground-truth section holds exactly one
record and the model section holds more than one, the result keeps the
success tag (the code overwrites the status on that branch), with zero
matches and the full non-missing ground-truth field count as total. -/
theorem model_cardinality_keeps_success (gt_data model_data : Document)
    (section_name : String)
    (h1 : ((gt_data.lookup section_name).getD []).length = 1)
    (h2 : 1 < ((model_data.lookup section_name).getD []).length) :
    (calculate_single_item_recall gt_data model_data section_name).status = "success" ∧
    (calculate_single_item_recall gt_data model_data section_name).matched_fields = 0 ∧
    (calculate_single_item_recall gt_data model_data section_name).total_gt_fields =
      count_non_missing_fields (((gt_data.lookup section_name).getD []).headD []) := by
  simp only [calculate_single_item_recall]
  have h0 : ¬ ((gt_data.lookup section_name).getD []).length = 0 := by omega
  have hgt1 : ¬ 1 < ((gt_data.lookup section_name).getD []).length := by omega
  have hm0 : ¬ ((model_data.lookup section_name).getD []).length = 0 := by omega
  simp [h0, hgt1, hm0, h2, SingleItemRecallResult.set_recall,
    SingleItemRecallResult.init]

/-- Concrete instance of `model_cardinality_keeps_success`. -/
theorem model_cardinality_keeps_success_witness :
    (calculate_single_item_recall [("donor", [[("age", some "35")]])]
      [("donor", [[("age", some "35")], [("age", some "36")]])]
      "donor").status = "success" ∧
    (calculate_single_item_recall [("donor", [[("age", some "35")]])]
      [("donor", [[("age", some "35")], [("age", some "36")]])]
      "donor").matched_fields = 0 ∧
    (calculate_single_item_recall [("donor", [[("age", some "35")]])]
      [("donor", [[("age", some "35")], [("age", some "36")]])]
      "donor").total_gt_fields = 1 := by
  have h := model_cardinality_keeps_success [("donor", [[("age", some "35")]])]
    [("donor", [[("age", some "35")], [("age", some "36")]])]
    "donor" (by decide) (by decide)
  refine ⟨h.1, h.2.1, ?_⟩
  rw [h.2.2]
  decide

theorem find_item_matches_aux_lookup_none (model : List Record) (mf : String) :
    ∀ (gt : List Record) (n k : Nat), k < n →
      (find_item_matches_aux model mf n gt).lookup k = none := by
  intro gt
  induction gt with
  | nil => intro n k h; rfl
  | cons g rest ih =>
    intro n k h
    have hk : (k == n) = false := beq_eq_false_iff_ne.mpr (by omega)
    simp only [find_item_matches_aux]
    by_cases hrow : (find_item_matches_row g model mf).isEmpty
    · simp [hrow, ih (n + 1) k (by omega)]
    · simp [hrow, List.lookup, hk, ih (n + 1) k (by omega)]

theorem multiItemLoopAux_congr (model : List Record) :
    ∀ (gt : List Record) (M M' : List (Nat × List Nat)) (n : Nat),
      (∀ k, n ≤ k → M.lookup k = M'.lookup k) →
      multiItemLoopAux M model n gt = multiItemLoopAux M' model n gt := by
  intro gt
  induction gt with
  | nil => intro M M' n h; rfl
  | cons g rest ih =>
    intro M M' n h
    simp only [multiItemLoopAux]
    rw [ih M M' (n + 1) (fun k hk => h k (by omega)), h n (le_refl n)]

theorem multiItemLoopAux_find_eq (model : List Record) (mf : String) :
    ∀ (gt : List Record) (n : Nat),
      multiItemLoopAux (find_item_matches_aux model mf n gt) model n gt =
        (gt.map (multiItemContrib model mf)).foldr addCounts (0, 0, 0, 0) := by
  intro gt
  induction gt with
  | nil => intro n; rfl
  | cons g rest ih =>
    intro n
    have htail : multiItemLoopAux (find_item_matches_aux model mf n (g :: rest))
        model (n + 1) rest =
        multiItemLoopAux (find_item_matches_aux model mf (n + 1) rest)
        model (n + 1) rest := by
      apply multiItemLoopAux_congr
      intro k hk
      have hk' : (k == n) = false := beq_eq_false_iff_ne.mpr (by omega)
      simp only [find_item_matches_aux]
      by_cases hrow : (find_item_matches_row g model mf).isEmpty
      · simp [hrow]
      · simp [hrow, List.lookup, hk']
    simp only [multiItemLoopAux, List.map_cons, List.foldr_cons]
    rw [htail, ih (n + 1)]
    by_cases hrow : (find_item_matches_row g model mf).isEmpty
    · have hlook : (find_item_matches_aux model mf n (g :: rest)).lookup n = none := by
        simp only [find_item_matches_aux]
        simp [hrow, find_item_matches_aux_lookup_none model mf rest (n + 1) n (by omega)]
      rw [hlook]
      have hempty : find_item_matches_row g model mf = [] := by
        simpa [List.isEmpty_iff] using hrow
      simp [multiItemContrib, hrow, addCounts]
    · have hlook : (find_item_matches_aux model mf n (g :: rest)).lookup n =
          some (find_item_matches_row g model mf) := by
        simp only [find_item_matches_aux]
        simp [hrow, List.lookup]
      rw [hlook]
      by_cases hlen : (find_item_matches_row g model mf).length > 1
      · simp [multiItemContrib, hrow, hlen, addCounts]
        omega
      · simp [multiItemContrib, hrow, hlen, addCounts]

theorem multiItemLoop_cons (g : Record) (gt model : List Record) (mf : String) :
    multiItemLoop (g :: gt) model mf =
      addCounts (multiItemContrib model mf g) (multiItemLoop gt model mf) := by
  simp only [multiItemLoop, find_item_matches]
  rw [multiItemLoopAux_find_eq model mf (g :: gt) 0, multiItemLoopAux_find_eq model mf gt 0]
  simp

/-- Claim C2 as amended: in `calculate_multi_item_recall`, a ground-truth
record whose matching key equals the key of two or more model records is
excluded from both the matched and total counts and tallied in
`skipped_items`; the field-recall entry point
(`calculate_field_recall_for_cell_line`) instead leaves such records
unpaired, so their non-missing fields count toward totals and no skipped
counter exists there. -/
theorem ambiguous_gt_item_only_skipped (g : Record)
    (gt_section model_section : List Record) (matching_field : String)
    (h : 1 < (find_item_matches_row g model_section matching_field).length) :
    multiItemLoop (g :: gt_section) model_section matching_field =
      ((multiItemLoop gt_section model_section matching_field).1,
       (multiItemLoop gt_section model_section matching_field).2.1,
       (multiItemLoop gt_section model_section matching_field).2.2.1,
       (multiItemLoop gt_section model_section matching_field).2.2.2 + 1) := by
  rw [multiItemLoop_cons]
  have hrow : (find_item_matches_row g model_section matching_field).isEmpty = false := by
    cases hr : find_item_matches_row g model_section matching_field with
    | nil => rw [hr] at h; simp at h
    | cons a l => simp
  simp [multiItemContrib, hrow, h, addCounts, Nat.add_comm]

/-- Concrete instance of `ambiguous_gt_item_only_skipped`: one ground-truth
ethics record against two model records with the same ethics number. -/
theorem ambiguous_gt_item_only_skipped_witness :
    1 < (find_item_matches_row [("ethics_number", some "E1"), ("institute", some "UQ")]
      [[("ethics_number", some "E1")], [("ethics_number", some "E1")]]
      "ethics_number").length ∧
    multiItemLoop [[("ethics_number", some "E1"), ("institute", some "UQ")]]
      [[("ethics_number", some "E1")], [("ethics_number", some "E1")]]
      "ethics_number" = (0, 0, 0, 1) := by
  refine ⟨by decide, ?_⟩
  rw [ambiguous_gt_item_only_skipped _ _ _ _ (by decide)]
  decide

/-- Counterexample for claim C2: on the same ambiguous input the
cell-line-recall entry point skips the record (nothing counted, skipped
tally 1), but the field-recall entry point adds both of its non-missing
fields to the totals. -/
theorem ambiguous_gt_not_excluded_in_field_recall :
    (calculate_multi_item_recall
      [("ethics", [[("ethics_number", some "E1"), ("institute", some "UQ")]])]
      [("ethics", [[("ethics_number", some "E1")], [("ethics_number", some "E1")]])]
      "ethics").skipped_items = 1 ∧
    (calculate_multi_item_recall
      [("ethics", [[("ethics_number", some "E1"), ("institute", some "UQ")]])]
      [("ethics", [[("ethics_number", some "E1")], [("ethics_number", some "E1")]])]
      "ethics").matched_fields = 0 ∧
    (calculate_multi_item_recall
      [("ethics", [[("ethics_number", some "E1"), ("institute", some "UQ")]])]
      [("ethics", [[("ethics_number", some "E1")], [("ethics_number", some "E1")]])]
      "ethics").total_gt_fields = 0 ∧
    calculate_field_recall_for_cell_line
      [("ethics", [[("ethics_number", some "E1"), ("institute", some "UQ")]])]
      [("ethics", [[("ethics_number", some "E1")], [("ethics_number", some "E1")]])] =
      [("ethics.ethics_number", (0, 1)), ("ethics.institute", (0, 1))] := by decide

/-- Claim C3 as amended: a ground-truth record whose matching-key field is
missing is not excluded; it receives the conservative full-miss treatment,
adding all its non-missing fields to the total count with zero matches. -/
theorem missing_key_gt_item_counts_toward_total (g : Record)
    (gt_section model_section : List Record) (matching_field : String)
    (h : get_matching_field_value g matching_field = none) :
    multiItemLoop (g :: gt_section) model_section matching_field =
      ((multiItemLoop gt_section model_section matching_field).1,
       count_non_missing_fields g +
         (multiItemLoop gt_section model_section matching_field).2.1,
       (multiItemLoop gt_section model_section matching_field).2.2.1,
       (multiItemLoop gt_section model_section matching_field).2.2.2) := by
  rw [multiItemLoop_cons]
  have hrow : find_item_matches_row g model_section matching_field = [] := by
    simp [find_item_matches_row, h]
  simp [multiItemContrib, hrow, addCounts]

/-- Concrete instance of `missing_key_gt_item_counts_toward_total`. -/
theorem missing_key_gt_item_counts_toward_total_witness :
    get_matching_field_value [("institute", some "UQ")] "ethics_number" = none ∧
    multiItemLoop [[("institute", some "UQ")]] [[("ethics_number", some "E9")]]
      "ethics_number" = (0, 1, 0, 0) := by
  refine ⟨by decide, ?_⟩
  rw [missing_key_gt_item_counts_toward_total _ _ _ _ (by decide)]
  decide

/-- Counterexample for claim C3: a ground-truth ethics record with no
ethics number contributes its non-missing field to the total in both
multi-item entry points instead of being excluded. -/
theorem missing_key_gt_item_not_excluded :
    (calculate_multi_item_recall [("ethics", [[("institute", some "UQ")]])]
      [("ethics", [[("ethics_number", some "E9")]])] "ethics").total_gt_fields = 1 ∧
    (calculate_multi_item_recall [("ethics", [[("institute", some "UQ")]])]
      [("ethics", [[("ethics_number", some "E9")]])] "ethics").matched_fields = 0 ∧
    calculate_field_recall_for_cell_line [("ethics", [[("institute", some "UQ")]])]
      [("ethics", [[("ethics_number", some "E9")]])] =
      [("ethics.institute", (0, 1))] := by decide

/-- Claim C5: the two multi-item matching implementations disagree.  With
two ground-truth contacts sharing a last name and one model contact, the
`find_item_matches` variant pairs both ground-truth records with the same
model record (3 of 4 fields matched), while the one-to-one
`match_multi_item_arrays` variant consumes the model record after the
first pair, so the field-recall entry point matches only 2 of 4. -/
theorem divergent_multi_item_matching :
    find_item_matches
      [[("last_name", some "Smith"), ("email", some "a@x.com")],
       [("last_name", some "Smith"), ("email", some "b@x.com")]]
      [[("last_name", some "Smith"), ("email", some "a@x.com")]]
      "last_name" = [(0, [0]), (1, [0])] ∧
    match_multi_item_arrays
      [[("last_name", some "Smith"), ("email", some "a@x.com")],
       [("last_name", some "Smith"), ("email", some "b@x.com")]]
      [[("last_name", some "Smith"), ("email", some "a@x.com")]]
      "last_name" =
      [([("last_name", some "Smith"), ("email", some "a@x.com")],
        [("last_name", some "Smith"), ("email", some "a@x.com")])] ∧
    multiItemLoop
      [[("last_name", some "Smith"), ("email", some "a@x.com")],
       [("last_name", some "Smith"), ("email", some "b@x.com")]]
      [[("last_name", some "Smith"), ("email", some "a@x.com")]]
      "last_name" = (3, 4, 2, 0) ∧
    calculate_field_recall_for_cell_line
      [("contact",
        [[("last_name", some "Smith"), ("email", some "a@x.com")],
         [("last_name", some "Smith"), ("email", some "b@x.com")]])]
      [("contact", [[("last_name", some "Smith"), ("email", some "a@x.com")]])] =
      [("contact.last_name", (1, 2)), ("contact.email", (1, 2))] := by decide

theorem lookup_eq_none_of_not_mem_keys :
    ∀ (l : FieldStats) (k : String), k ∉ l.map Prod.fst → l.lookup k = none := by
  intro l
  induction l with
  | nil => intro k _; rfl
  | cons p rest ih =>
    intro k h
    simp only [List.map_cons, List.mem_cons] at h
    push_neg at h
    have hb : (k == p.1) = false := beq_eq_false_iff_ne.mpr h.1
    simp [List.lookup, hb, ih k h.2]

theorem getStat_bumpStat :
    ∀ (stats : FieldStats) (key : String) (dm dt : Nat) (fp : String),
      getStat (bumpStat stats key dm dt) fp =
        if fp = key then ((getStat stats fp).1 + dm, (getStat stats fp).2 + dt)
        else getStat stats fp := by
  intro stats key dm dt fp
  induction stats with
  | nil =>
    by_cases h : fp = key
    · simp [bumpStat, getStat, List.lookup, h]
    · have hb : (fp == key) = false := beq_eq_false_iff_ne.mpr h
      simp [bumpStat, getStat, List.lookup, h, hb]
  | cons p rest ih =>
    obtain ⟨k, m, t⟩ := p
    by_cases hk : k = key
    · subst hk
      by_cases hf : fp = k
      · subst hf
        simp [bumpStat, getStat, List.lookup]
      · have hb : (fp == k) = false := beq_eq_false_iff_ne.mpr hf
        simp [bumpStat, getStat, List.lookup, hf, hb]
    · have hkb : ¬ (k = key) := hk
      by_cases hf : fp = k
      · subst hf
        have hfk : ¬ (fp = key) := fun he => hk he
        simp [bumpStat, getStat, List.lookup, hk, hfk]
      · have hb : (fp == k) = false := beq_eq_false_iff_ne.mpr hf
        simp [bumpStat, getStat, List.lookup, hk, hb] at ih ⊢
        exact ih

theorem getStat_foldl_doc :
    ∀ (doc : FieldStats) (agg : FieldStats) (fp : String),
      (doc.map Prod.fst).Nodup →
      getStat (doc.foldl (fun a p => bumpStat a p.1 p.2.1 p.2.2) agg) fp =
        ((getStat agg fp).1 + (getStat doc fp).1,
         (getStat agg fp).2 + (getStat doc fp).2) := by
  intro doc
  induction doc with
  | nil => intro agg fp _; simp [getStat]
  | cons p rest ih =>
    intro agg fp h
    obtain ⟨k, v⟩ := p
    simp only [List.map_cons, List.nodup_cons] at h
    simp only [List.foldl_cons]
    rw [ih (bumpStat agg k v.1 v.2) fp h.2, getStat_bumpStat]
    by_cases hf : fp = k
    · subst hf
      have hrest : rest.lookup fp = none :=
        lookup_eq_none_of_not_mem_keys rest fp h.1
      simp [getStat, List.lookup, hrest]
    · have hb : (fp == k) = false := beq_eq_false_iff_ne.mpr hf
      simp [getStat, List.lookup, hf, hb]

theorem getStat_foldl_docs :
    ∀ (docs : List FieldStats) (agg : FieldStats) (fp : String),
      (∀ d ∈ docs, (d.map Prod.fst).Nodup) →
      getStat (docs.foldl
          (fun agg doc => doc.foldl (fun a p => bumpStat a p.1 p.2.1 p.2.2) agg) agg) fp =
        ((getStat agg fp).1 + (docs.map (fun d => (getStat d fp).1)).sum,
         (getStat agg fp).2 + (docs.map (fun d => (getStat d fp).2)).sum) := by
  intro docs
  induction docs with
  | nil => intro agg fp _; simp
  | cons d rest ih =>
    intro agg fp h
    simp only [List.foldl_cons, List.map_cons, List.sum_cons]
    rw [ih _ fp (fun x hx => h x (List.mem_cons_of_mem d hx)),
      getStat_foldl_doc d agg fp (h d (List.mem_cons_self d rest))]
    simp only [Prod.mk.injEq]
    constructor <;> omega

theorem getStat_aggregate (docs : List FieldStats) (fp : String)
    (h : ∀ d ∈ docs, (d.map Prod.fst).Nodup) :
    getStat (aggregate_field_stats docs) fp =
      ((docs.map (fun d => (getStat d fp).1)).sum,
       (docs.map (fun d => (getStat d fp).2)).sum) := by
  have := getStat_foldl_docs docs [] fp h
  simpa [aggregate_field_stats, getStat] using this

theorem field_recall_scores_lookup :
    ∀ (stats : FieldStats) (fp : String),
      (field_recall_scores stats).lookup fp =
        (stats.lookup fp).map
          (fun v => if v.2 > 0 then (v.1 : ℚ) / (v.2 : ℚ) else 0) := by
  intro stats fp
  induction stats with
  | nil => rfl
  | cons p rest ih =>
    by_cases hf : fp = p.1
    · subst hf
      simp [field_recall_scores, List.lookup]
    · have hb : (fp == p.1) = false := beq_eq_false_iff_ne.mpr hf
      simpa [field_recall_scores, List.lookup, hb] using ih

/-- Claim C7: the aggregate recall of a field path is the ratio of the
summed matched counts to the summed total counts across the per-document
statistics — a ratio of sums, not a mean of per-document recalls. -/
theorem aggregate_recall_is_ratio_of_sums (docs : List FieldStats) (fp : String)
    (hnd : ∀ d ∈ docs, (d.map Prod.fst).Nodup)
    (hmem : (aggregate_field_stats docs).lookup fp ≠ none) :
    (field_recall_scores (aggregate_field_stats docs)).lookup fp =
      some (if 0 < (docs.map (fun d => (getStat d fp).2)).sum then
        ((docs.map (fun d => (getStat d fp).1)).sum : ℚ) /
          ((docs.map (fun d => (getStat d fp).2)).sum : ℚ)
      else 0) := by
  obtain ⟨v, hv⟩ := Option.ne_none_iff_exists'.mp hmem
  have hv2 : v = ((docs.map (fun d => (getStat d fp).1)).sum,
      (docs.map (fun d => (getStat d fp).2)).sum) := by
    have hg := getStat_aggregate docs fp hnd
    rw [getStat, hv] at hg
    simpa using hg
  rw [field_recall_scores_lookup, hv, hv2]
  rfl

/-- Concrete instance of `aggregate_recall_is_ratio_of_sums`: documents
with (1 of 2) and (2 of 2) for `donor.age` aggregate to recall 3/4. -/
theorem aggregate_recall_is_ratio_of_sums_witness :
    (field_recall_scores (aggregate_field_stats
      [[("donor.age", (1, 2))], [("donor.age", (2, 2))]])).lookup "donor.age" =
      some ((3 : ℚ) / 4) := by
  have h := aggregate_recall_is_ratio_of_sums
    [[("donor.age", (1, 2))], [("donor.age", (2, 2))]] "donor.age"
    (by decide) (by decide)
  rw [h]
  norm_num [getStat, List.lookup]

/-- Claim C8: a zero ground-truth total always yields recall exactly 0, in
both result types and in the per-field recall conversion; the division
branch is guarded by `total > 0`, so the zero case returns the constant. -/
theorem zero_total_recall_zero :
    (∀ (r : SingleItemRecallResult) (matched : Nat),
      (r.set_recall matched 0).recall_score = 0) ∧
    (∀ (r : MultiItemRecallResult) (matched : Nat),
      (r.set_recall matched 0).recall_score = 0) ∧
    (∀ (stats : FieldStats) (fp : String) (matched : Nat),
      stats.lookup fp = some (matched, 0) →
      (field_recall_scores stats).lookup fp = some 0) := by
  refine ⟨?_, ?_, ?_⟩
  · intro r matched
    simp [SingleItemRecallResult.set_recall]
  · intro r matched
    simp [MultiItemRecallResult.set_recall]
  · intro stats fp matched h
    rw [field_recall_scores_lookup, h]
    simp

/-- Concrete instance of `zero_total_recall_zero`. -/
theorem zero_total_recall_zero_witness :
    ((SingleItemRecallResult.init "donor").set_recall 5 0).recall_score = 0 ∧
    ((MultiItemRecallResult.init "ethics").set_recall 7 0).recall_score = 0 ∧
    (field_recall_scores [("donor.age", (5, 0))]).lookup "donor.age" = some 0 :=
  ⟨zero_total_recall_zero.1 (SingleItemRecallResult.init "donor") 5,
   zero_total_recall_zero.2.1 (MultiItemRecallResult.init "ethics") 7,
   zero_total_recall_zero.2.2 [("donor.age", (5, 0))] "donor.age" 5 (by decide)⟩

/-- Counterexample for claim C6: a hyphen-delimited range is not parsed
(so `"25-29"` vs `"27"` is not equivalent although 27 lies in 25..29); a
model value of the form `d_d` is read by `int(float(s))` as one number
(PEP 515 underscores), so `"2020_2040"` vs `"20_30"` is equivalent, though
the claim calls both ranges with different bounds; and two empty strings
are never equivalent despite having equal trimmed forms. -/
theorem ages_equivalent_counterexample :
    ages_are_semantically_equivalent "25-29" "27" = false ∧
    ages_are_semantically_equivalent "2020_2040" "20_30" = true ∧
    ages_are_semantically_equivalent "" "" = false := by decide

/-- Claim C6 as amended: for non-empty strings, equivalence holds iff the
trimmed strings are equal, or the ground truth parses as an
underscore-delimited integer range and the model value parses as a Python
number (`int(float(s))`) lying inclusively in the range, or the model
value is no number but parses as a range with identical bounds, or the
ground truth is no range but is a number and the model value is a range
containing it or the same number; empty inputs are never equivalent. -/
theorem ages_equivalent_characterization (gt_value model_value : String) :
    ages_are_semantically_equivalent gt_value model_value = true ↔
      (gt_value ≠ "" ∧ model_value ≠ "" ∧
        (pyStrip gt_value = pyStrip model_value ∨
         (∃ lo hi, parse_age_range gt_value = some (lo, hi) ∧
           ((∃ a, parse_single_age model_value = some a ∧ lo ≤ a ∧ a ≤ hi) ∨
            (parse_single_age model_value = none ∧
              parse_age_range model_value = some (lo, hi)))) ∨
         (parse_age_range gt_value = none ∧
           ∃ g, parse_single_age gt_value = some g ∧
             ((∃ lo hi, parse_age_range model_value = some (lo, hi) ∧
                lo ≤ g ∧ g ≤ hi) ∨
              (parse_age_range model_value = none ∧
                parse_single_age model_value = some g))))) := by
  simp only [ages_are_semantically_equivalent, age_equiv_tail]
  by_cases hge : gt_value = ""
  · simp [hge]
  by_cases hme : model_value = ""
  · simp [hge, hme]
  by_cases htrim : pyStrip gt_value = pyStrip model_value
  · simp [hge, hme, htrim]
  rcases hgr : parse_age_range gt_value with _ | ⟨lo, hi⟩ <;>
    rcases hga : parse_single_age gt_value with _ | g <;>
      rcases hmr : parse_age_range model_value with _ | ⟨ml, mh⟩ <;>
        rcases hma : parse_single_age model_value with _ | a <;>
          simp [hge, hme, htrim, hgr, hga, hmr, hma, is_age_in_range] <;>
        try exact eq_comm
  all_goals
    constructor
    · intro h
      exact ⟨_, _, ⟨rfl, rfl⟩, h⟩
    · rintro ⟨x, y, ⟨rfl, rfl⟩, h⟩
      exact h

/-- Concrete instance of `ages_equivalent_characterization`: 27 lies in the
underscore range 25..29. -/
theorem ages_equivalent_characterization_witness :
    ages_are_semantically_equivalent "25_29" "27" = true :=
  (ages_equivalent_characterization "25_29" "27").mpr
    ⟨by decide, by decide,
      Or.inr (Or.inl ⟨25, 29, by decide,
        Or.inl ⟨27, by decide, by decide, by decide⟩⟩)⟩
